import Mathlib

/-!
Shallow embedding of the ClickHouse Cloud MCP server (src/clickhouse.ts):
the JSON value model, the zod input schemas with their validation
semantics, the HTTP call adapter (callClickHouseApi) response handling,
and the tool dispatcher (the CallToolRequestSchema handler).
-/

namespace ClickHouseMcp

/-- JSON values exchanged between the MCP client, the dispatcher and the
upstream API. Numbers are modelled as exact rationals. -/
inductive Json where
  | null : Json
  | bool (b : Bool) : Json
  | num (q : Rat) : Json
  | str (s : String) : Json
  | arr (xs : List Json) : Json
  | obj (fields : List (String × Json)) : Json

/-- First-match field lookup in an association list of JSON object fields. -/
def lookupField : List (String × Json) → String → Option Json
  | [], _ => none
  | (k, v) :: rest, key => if k = key then some v else lookupField rest key

/-- JavaScript optional-chaining field access: `data?.k` is `undefined`
(modelled as `none`) when the value is not an object or lacks the key. -/
def jLookup : Json → String → Option Json
  | Json.obj fs, key => lookupField fs key
  | _, _ => none

/-- JavaScript truthiness of a JSON value: null, false, 0 and the empty
string are falsy; every object and array is truthy. -/
def jsTruthy : Json → Bool
  | Json.null => false
  | Json.bool b => b
  | Json.num q => q != 0
  | Json.str s => s != ""
  | Json.arr _ => true
  | Json.obj _ => true

/-- Rendering of a rational for string output. Integral values print as
integers, matching the integral numbers that actually flow through. -/
def ratToString (q : Rat) : String :=
  if q.den = 1 then toString q.num else toString q.num ++ "/" ++ toString q.den

mutual

/-- JavaScript string coercion of a value, as used by template-literal
interpolation. Objects coerce to "[object Object]", arrays join their
elements with commas. -/
def jsToString : Json → String
  | Json.null => "null"
  | Json.bool true => "true"
  | Json.bool false => "false"
  | Json.num q => ratToString q
  | Json.str s => s
  | Json.arr xs => jsToStringList xs
  | Json.obj _ => "[object Object]"
termination_by structural j => j

def jsToStringList : List Json → String
  | [] => ""
  | [x] => jsToString x
  | x :: xs => jsToString x ++ "," ++ jsToStringList xs
termination_by structural xs => xs

end

/-- JSON string escaping for serialization. -/
def escapeChar (c : Char) : String :=
  if c = '"' then "\\\""
  else if c = '\\' then "\\\\"
  else if c = '\n' then "\\n"
  else if c = '\t' then "\\t"
  else if c = '\r' then "\\r"
  else String.singleton c

def escapeString (s : String) : String :=
  String.join (s.toList.map escapeChar)

mutual

/-- Compact JSON serialization, as JSON.stringify with no spacing. -/
def stringify : Json → String
  | Json.null => "null"
  | Json.bool true => "true"
  | Json.bool false => "false"
  | Json.num q => ratToString q
  | Json.str s => "\"" ++ escapeString s ++ "\""
  | Json.arr xs => "[" ++ stringifyItems xs ++ "]"
  | Json.obj fs => "\x7b" ++ stringifyFields fs ++ "\x7d"
termination_by structural j => j

def stringifyItems : List Json → String
  | [] => ""
  | [x] => stringify x
  | x :: xs => stringify x ++ "," ++ stringifyItems xs
termination_by structural xs => xs

def stringifyFields : List (String × Json) → String
  | [] => ""
  | [(k, v)] => "\"" ++ escapeString k ++ "\":" ++ stringify v
  | (k, v) :: fs => "\"" ++ escapeString k ++ "\":" ++ stringify v ++ "," ++ stringifyFields fs
termination_by structural fs => fs

end

def indentOf (n : Nat) : String :=
  String.join (List.replicate n " ")

mutual

/-- JSON serialization with a two-space indent, as JSON.stringify with
indent argument 2, used for the MCP text content payload. -/
def pretty (ind : Nat) : Json → String
  | Json.arr [] => "[]"
  | Json.arr xs =>
      "[\n" ++ prettyItems (ind + 2) xs ++ "\n" ++ indentOf ind ++ "]"
  | Json.obj [] => "\x7b\x7d"
  | Json.obj fs =>
      "\x7b\n" ++ prettyFields (ind + 2) fs ++ "\n" ++ indentOf ind ++ "\x7d"
  | j => stringify j
termination_by structural j => j

def prettyItems (ind : Nat) : List Json → String
  | [] => ""
  | [x] => indentOf ind ++ pretty ind x
  | x :: xs => indentOf ind ++ pretty ind x ++ ",\n" ++ prettyItems ind xs
termination_by structural xs => xs

def prettyFields (ind : Nat) : List (String × Json) → String
  | [] => ""
  | [(k, v)] => indentOf ind ++ "\"" ++ escapeString k ++ "\": " ++ pretty ind v
  | (k, v) :: fs =>
      indentOf ind ++ "\"" ++ escapeString k ++ "\": " ++ pretty ind v ++ ",\n"
        ++ prettyFields ind fs
termination_by structural fs => fs

end

def stringifyIndent2 (j : Json) : String := pretty 0 j

/-! ## Zod input schemas and their validation semantics -/

def isHexDigit (c : Char) : Bool :=
  ('0' ≤ c && c ≤ '9') || ('a' ≤ c && c ≤ 'f') || ('A' ≤ c && c ≤ 'F')

/-- RFC-4122 textual UUID shape, as checked by the zod uuid regular
expression: five groups of hex digits of lengths 8, 4, 4, 4 and 12,
separated by hyphens. -/
def isUuid (s : String) : Bool :=
  let cs := s.toList
  cs.length = 36 &&
    (List.range 36).all (fun i =>
      if i = 8 || i = 13 || i = 18 || i = 23 then cs.getD i ' ' = '-'
      else isHexDigit (cs.getD i ' '))

/-- Exact multiple-of check on rational numbers: `q` is an integral
multiple of `step` when the fraction q / step reduces to an integer,
checked by integer divisibility of the cross products. This is the
drift-free semantics of the zod multipleOf check. -/
def multipleOfCheck (q step : Rat) : Bool :=
  (q.num * (step.den : Int)) % (step.num * (q.den : Int)) == 0

/-- The schema language actually used by the tool input schemas in
src/clickhouse.ts: strings, UUID strings, numbers with optional
minimum / maximum / multiple-of checks, closed string enumerations,
objects with required or optional fields, and arrays. -/
inductive Zod where
  | zstring : Zod
  | zuuid : Zod
  | znumber (ge le mul : Option Rat) : Zod
  | zenum (vals : List String) : Zod
  | zobject (fields : List (String × Zod × Bool)) : Zod
  | zarray (elem : Zod) : Zod

/-- One validation issue: the path of the offending field and a message. -/
structure ZodIssue where
  path : List String
  msg : String
deriving DecidableEq, Repr

/-- Number checks run after type-correctness; all failing checks are
collected, as zod does. -/
def numIssues (ge le mul : Option Rat) (p : List String) (q : Rat) : List ZodIssue :=
  (match ge with
   | some m => if q < m then [⟨p, "Number must be greater than or equal to " ++ ratToString m⟩] else []
   | none => []) ++
  (match le with
   | some m => if m < q then [⟨p, "Number must be less than or equal to " ++ ratToString m⟩] else []
   | none => []) ++
  (match mul with
   | some m => if multipleOfCheck q m then [] else [⟨p, "Number must be a multiple of " ++ ratToString m⟩]
   | none => [])

mutual

/-- Validation of a JSON value against a schema, mirroring zod parse:
on success it returns the validated value (objects are rebuilt from the
declared fields only, so unknown keys are stripped — the default
non-strict object mode); on failure it returns every collected issue. -/
def zparse (z : Zod) (p : List String) (j : Json) : Except (List ZodIssue) Json :=
  match z, j with
  | Zod.zstring, Json.str s => Except.ok (Json.str s)
  | Zod.zstring, _ => Except.error [⟨p, "Expected string"⟩]
  | Zod.zuuid, Json.str s =>
      if isUuid s then Except.ok (Json.str s) else Except.error [⟨p, "Invalid uuid"⟩]
  | Zod.zuuid, _ => Except.error [⟨p, "Expected string"⟩]
  | Zod.znumber ge le mul, Json.num q =>
      match numIssues ge le mul p q with
      | [] => Except.ok (Json.num q)
      | issues => Except.error issues
  | Zod.znumber _ _ _, _ => Except.error [⟨p, "Expected number"⟩]
  | Zod.zenum vals, Json.str s =>
      if vals.contains s then Except.ok (Json.str s)
      else Except.error [⟨p, "Invalid enum value"⟩]
  | Zod.zenum _, _ => Except.error [⟨p, "Expected string"⟩]
  | Zod.zobject fields, Json.obj kvs =>
      match fieldIssues fields p kvs with
      | [] => Except.ok (Json.obj (fieldOut fields p kvs))
      | issues => Except.error issues
  | Zod.zobject _, _ => Except.error [⟨p, "Expected object"⟩]
  | Zod.zarray elem, Json.arr xs =>
      match (xs.enum.map (fun ix =>
          match zparse elem (p ++ [toString ix.1]) ix.2 with
          | Except.ok _ => []
          | Except.error issues => issues)).flatten with
      | [] => Except.ok (Json.arr (xs.enum.filterMap (fun ix =>
          match zparse elem (p ++ [toString ix.1]) ix.2 with
          | Except.ok v => some v
          | Except.error _ => none)))
      | issues => Except.error issues
  | Zod.zarray _, _ => Except.error [⟨p, "Expected array"⟩]
termination_by structural z

/-- All issues collected over the declared fields of an object schema, in
declaration order: a missing required field yields a Required issue, a
present field contributes the issues of its own validation. -/
def fieldIssues (fields : List (String × Zod × Bool)) (p : List String)
    (kvs : List (String × Json)) : List ZodIssue :=
  match fields with
  | [] => []
  | (k, t, opt) :: rest =>
      (match lookupField kvs k with
       | none => if opt then [] else [⟨p ++ [k], "Required"⟩]
       | some v =>
           match zparse t (p ++ [k]) v with
           | Except.ok _ => []
           | Except.error issues => issues) ++ fieldIssues rest p kvs
termination_by structural fields

/-- The validated output object fields: only declared fields that are
present and valid, in declaration order — unknown keys are stripped. -/
def fieldOut (fields : List (String × Zod × Bool)) (p : List String)
    (kvs : List (String × Json)) : List (String × Json) :=
  match fields with
  | [] => []
  | (k, t, _) :: rest =>
      (match lookupField kvs k with
       | none => []
       | some v =>
           match zparse t (p ++ [k]) v with
           | Except.ok v2 => [(k, v2)]
           | Except.error _ => []) ++ fieldOut rest p kvs
termination_by structural fields

end

/-- Rendering of a zod validation failure as the thrown error message. -/
def zodMsg (issues : List ZodIssue) : String :=
  String.intercalate "; "
    (issues.map (fun i => String.intercalate "." i.path ++ ": " ++ i.msg))

/-! ## The tool input schemas of src/clickhouse.ts -/

def OrgIdParamSchema : Zod :=
  Zod.zobject [("organizationId", Zod.zuuid, false)]

def ServiceIdParamSchema : Zod :=
  Zod.zobject [("organizationId", Zod.zuuid, false), ("serviceId", Zod.zuuid, false)]

def ListOrganizationsSchema : Zod := Zod.zobject []

def GetOrganizationDetailsSchema : Zod := OrgIdParamSchema

def ListServicesSchema : Zod := OrgIdParamSchema

def GetServiceDetailsSchema : Zod := ServiceIdParamSchema

def IpAccessListEntrySchema : Zod :=
  Zod.zobject [("source", Zod.zstring, false), ("description", Zod.zstring, true)]

def ServicePostRequestSchema : Zod :=
  Zod.zobject
    [("name", Zod.zstring, false),
     ("provider", Zod.zenum ["aws", "gcp", "azure"], false),
     ("region", Zod.zenum
        ["ap-south-1", "ap-southeast-1", "eu-central-1", "eu-west-1", "eu-west-2",
         "us-east-1", "us-east-2", "us-west-2", "ap-southeast-2", "ap-northeast-1",
         "me-central-1", "us-east1", "us-central1", "europe-west4", "asia-southeast1",
         "eastus", "eastus2", "westus3", "germanywestcentral"], false),
     ("minReplicaMemoryGb", Zod.znumber (some 8) none (some 4), true),
     ("maxReplicaMemoryGb", Zod.znumber (some 8) none (some 4), true),
     ("numReplicas", Zod.znumber (some 1) (some 20) none, true),
     ("ipAccessList", Zod.zarray IpAccessListEntrySchema, true)]

def CreateServiceSchema : Zod :=
  Zod.zobject
    [("organizationId", Zod.zuuid, false),
     ("body", ServicePostRequestSchema, false)]

def DeleteServiceSchema : Zod := ServiceIdParamSchema

def ListApiKeysSchema : Zod := OrgIdParamSchema

def ServiceStatePatchRequestSchema : Zod :=
  Zod.zobject [("command", Zod.zenum ["start", "stop"], false)]

def UpdateServiceStateSchema : Zod :=
  Zod.zobject
    [("organizationId", Zod.zuuid, false),
     ("serviceId", Zod.zuuid, false),
     ("body", ServiceStatePatchRequestSchema, false)]

/-! ## The HTTP call adapter (callClickHouseApi) -/

inductive Method where
  | GET : Method
  | POST : Method
  | PATCH : Method
  | DELETE : Method
deriving DecidableEq, Repr

def methodStr : Method → String
  | Method.GET => "GET"
  | Method.POST => "POST"
  | Method.PATCH => "PATCH"
  | Method.DELETE => "DELETE"

/-- The outgoing HTTP request as assembled by callClickHouseApi:
`body = none` means no request body is attached; `contentTypeJson`
records whether the Content-Type application/json header was set. -/
structure HttpRequest where
  path : String
  method : Method
  body : Option Json
  contentTypeJson : Bool

/-- Request construction (clickhouse.ts lines 34-42): the body is
serialized and attached, with Content-Type application/json, only when a
truthy body value was supplied and the method is POST or PATCH. -/
def buildRequest (path : String) (method : Method) (body : Option Json) : HttpRequest :=
  if (match body with | some b => jsTruthy b | none => false)
      && (method = Method.POST || method = Method.PATCH) then
    { path := path, method := method, body := body, contentTypeJson := true }
  else
    { path := path, method := method, body := none, contentTypeJson := false }

/-- The upstream HTTP response as observed through the fetch Response
object. `textBody = none` means reading the body text rejects, with
`readErrMsg` the message of that rejection; `jsonBody = none` means the
JSON body parse rejects. -/
structure HttpResponse where
  status : Nat
  statusText : String
  contentType : Option String
  contentLength : Option String
  textBody : Option String
  readErrMsg : String
  jsonBody : Option Json

/-- `response.ok`: status in the 2xx range. -/
def responseOk (r : HttpResponse) : Bool :=
  200 ≤ r.status && r.status ≤ 299

/-- Character-list prefix test, the semantics of String.startsWith. -/
def strStartsWith (s pre : String) : Bool :=
  List.isPrefixOf pre.toList s.toList

/-- The content-type header begins with text/plain. -/
def isTextPlain (r : HttpResponse) : Bool :=
  match r.contentType with
  | some ct => strStartsWith ct "text/plain"
  | none => false

/-- The error message thrown for a failing upstream call. -/
def apiErr (method : Method) (path : String) (status : Nat) (msg : String) : String :=
  "ClickHouse API Error (" ++ methodStr method ++ " " ++ path ++ "): "
    ++ toString status ++ " " ++ msg

/-- The success value synthesized for a response with no content. -/
def noContentValue (status : Nat) : Json :=
  Json.obj [("status", Json.num (status : Rat)),
            ("message", Json.str "Operation successful (No Content)")]

/-- `responseData?.k`, kept only when truthy (the JavaScript or-chain
falls through on a falsy field). -/
def truthyLookup (data : Json) (k : String) : Option Json :=
  match jLookup data k with
  | some v => if jsTruthy v then some v else none
  | none => none

/-- Message extraction for a non-2xx JSON response (clickhouse.ts line
82): the body error field, else its message field, else the serialized
body, else the HTTP status text. -/
def extractErrMsg (data : Json) (statusText : String) : String :=
  match truthyLookup data "error" with
  | some v => jsToString v
  | none =>
      match truthyLookup data "message" with
      | some v => jsToString v
      | none =>
          let s := stringify data
          if s = "" then statusText else s

/-- The non-ok status gate at the end of the JSON path (lines 81-87). -/
def finishJson (method : Method) (path : String) (r : HttpResponse)
    (data : Json) (jsonParsed : Bool) : Except String Json × Bool :=
  if responseOk r then (Except.ok data, jsonParsed)
  else (Except.error (apiErr method path r.status (extractErrMsg data r.statusText)), jsonParsed)

/-- Response handling of callClickHouseApi (clickhouse.ts lines 46-90).
The second component records whether the JSON body parse was attempted.
Ordered rules: text/plain first; then the no-content synthesis for
status 204 or content-length 0; then the JSON parse; then the status
gate. -/
def handleResponse (method : Method) (path : String) (r : HttpResponse) :
    Except String Json × Bool :=
  if isTextPlain r then
    if responseOk r then
      match r.textBody with
      | some t => (Except.ok (Json.obj [("plainTextResponse", Json.str t)]), false)
      | none => (Except.error r.readErrMsg, false)
    else
      (Except.error (apiErr method path r.status
        (match r.textBody with | some t => t | none => r.statusText)), false)
  else if r.status = 204 || r.contentLength = some "0" then
    finishJson method path r (noContentValue r.status) false
  else
    match r.jsonBody with
    | some data => finishJson method path r data true
    | none =>
        (Except.error ("ClickHouse API Error (" ++ methodStr method ++ " " ++ path
          ++ "): Failed to parse JSON response. Status: " ++ toString r.status
          ++ ". Response text: "
          ++ (match r.textBody with | some t => t | none => r.statusText)), true)

/-! ## The tool dispatcher (the CallToolRequestSchema handler) -/

/-- The two credential environment variables; `none` models an unset
variable. -/
structure Env where
  apiKeyId : Option String
  apiKeySecret : Option String

/-- JavaScript falsiness of a possibly-unset string environment variable:
unset or empty both fail the credential gate. -/
def strFalsy : Option String → Bool
  | none => true
  | some s => s = ""

def configErrMsg : String :=
  "ClickHouse API Key ID or Secret not configured. Set CLICKHOUSE_API_KEY_ID and CLICKHOUSE_API_SECRET environment variables."

/-- Field access on validated arguments as used in the template-literal
path interpolation. -/
def getStr (v : Json) (k : String) : String :=
  match jLookup v k with
  | some j => jsToString j
  | none => "undefined"

/-- The MCP success payload: one text content block holding the
two-space-indented JSON serialization of the result. -/
def mcpContent (result : Json) : Json :=
  Json.obj [("content", Json.arr
    [Json.obj [("type", Json.str "text"), ("text", Json.str (stringifyIndent2 result))]])]

/-- The outcome of one dispatched invocation: the HTTP requests actually
issued, the response to the caller (an error message, or the MCP content
payload), and whether a JSON body parse was attempted. -/
structure DispatchOut where
  requests : List HttpRequest
  outcome : Except String Json
  jsonParsed : Bool

/-- A failure caught at the dispatch boundary (clickhouse.ts line 367):
re-surfaced with the tool name prefixed, no request issued. -/
def failTool (name msg : String) : DispatchOut :=
  { requests := [], outcome := Except.error ("Tool " ++ name ++ " failed: " ++ msg),
    jsonParsed := false }

/-- Issue the assembled request, process the response through the adapter,
and either wrap the result as MCP content or re-surface the failure with
the tool name prefixed. -/
def runTool (name : String) (net : HttpRequest → HttpResponse)
    (req : HttpRequest) : DispatchOut :=
  let out := handleResponse req.method req.path (net req)
  { requests := [req],
    outcome :=
      match out.1 with
      | Except.error e => Except.error ("Tool " ++ name ++ " failed: " ++ e)
      | Except.ok data => Except.ok (mcpContent data),
    jsonParsed := out.2 }

/-- The CallToolRequestSchema handler (clickhouse.ts lines 235-375): the
per-call credential gate, then the switch on the tool name, each case
validating the arguments against its schema and issuing one upstream
request; the network is an oracle from requests to responses. -/
def dispatch (env : Env) (name : String) (args : Json)
    (net : HttpRequest → HttpResponse) : DispatchOut :=
  if strFalsy env.apiKeyId || strFalsy env.apiKeySecret then
    { requests := [], outcome := Except.error configErrMsg, jsonParsed := false }
  else if name = "clickhouse_listOrganizations" then
    match zparse ListOrganizationsSchema [] args with
    | Except.error issues => failTool name (zodMsg issues)
    | Except.ok _ => runTool name net (buildRequest "/v1/organizations" Method.GET none)
  else if name = "clickhouse_getOrganizationDetails" then
    match zparse GetOrganizationDetailsSchema [] args with
    | Except.error issues => failTool name (zodMsg issues)
    | Except.ok v => runTool name net
        (buildRequest ("/v1/organizations/" ++ getStr v "organizationId") Method.GET none)
  else if name = "clickhouse_listServices" then
    match zparse ListServicesSchema [] args with
    | Except.error issues => failTool name (zodMsg issues)
    | Except.ok v => runTool name net
        (buildRequest ("/v1/organizations/" ++ getStr v "organizationId" ++ "/services")
          Method.GET none)
  else if name = "clickhouse_getServiceDetails" then
    match zparse GetServiceDetailsSchema [] args with
    | Except.error issues => failTool name (zodMsg issues)
    | Except.ok v => runTool name net
        (buildRequest ("/v1/organizations/" ++ getStr v "organizationId"
          ++ "/services/" ++ getStr v "serviceId") Method.GET none)
  else if name = "clickhouse_createService" then
    match zparse CreateServiceSchema [] args with
    | Except.error issues => failTool name (zodMsg issues)
    | Except.ok v => runTool name net
        (buildRequest ("/v1/organizations/" ++ getStr v "organizationId" ++ "/services")
          Method.POST (jLookup v "body"))
  else if name = "clickhouse_deleteService" then
    match zparse DeleteServiceSchema [] args with
    | Except.error issues => failTool name (zodMsg issues)
    | Except.ok v => runTool name net
        (buildRequest ("/v1/organizations/" ++ getStr v "organizationId"
          ++ "/services/" ++ getStr v "serviceId") Method.DELETE none)
  else if name = "clickhouse_listApiKeys" then
    match zparse ListApiKeysSchema [] args with
    | Except.error issues => failTool name (zodMsg issues)
    | Except.ok v => runTool name net
        (buildRequest ("/v1/organizations/" ++ getStr v "organizationId" ++ "/keys")
          Method.GET none)
  else if name = "clickhouse_updateServiceState" then
    match zparse UpdateServiceStateSchema [] args with
    | Except.error issues => failTool name (zodMsg issues)
    | Except.ok v => runTool name net
        (buildRequest ("/v1/organizations/" ++ getStr v "organizationId"
          ++ "/services/" ++ getStr v "serviceId" ++ "/state")
          Method.PATCH (jLookup v "body"))
  else
    failTool name ("Unknown tool: " ++ name)

/-- The schema each registered tool name validates its arguments against,
`none` for a name outside the registry. -/
def schemaFor (name : String) : Option Zod :=
  if name = "clickhouse_listOrganizations" then some ListOrganizationsSchema
  else if name = "clickhouse_getOrganizationDetails" then some GetOrganizationDetailsSchema
  else if name = "clickhouse_listServices" then some ListServicesSchema
  else if name = "clickhouse_getServiceDetails" then some GetServiceDetailsSchema
  else if name = "clickhouse_createService" then some CreateServiceSchema
  else if name = "clickhouse_deleteService" then some DeleteServiceSchema
  else if name = "clickhouse_listApiKeys" then some ListApiKeysSchema
  else if name = "clickhouse_updateServiceState" then some UpdateServiceStateSchema
  else none

/-! ## Shared fixtures and helper lemmas -/

/-- A well-formed organization id. -/
def uuidOrg : String := "123e4567-e89b-12d3-a456-426614174000"

/-- A well-formed service id. -/
def uuidSvc : String := "9b2f8d3c-1a2b-4c5d-8e6f-0123456789ab"

theorem isUuid_uuidOrg : isUuid uuidOrg = true := by decide

theorem isUuid_uuidSvc : isUuid uuidSvc = true := by decide

/-- An environment with both credentials configured. -/
def envOK : Env := { apiKeyId := some "keyid", apiKeySecret := some "keysecret" }

/-- A 204 upstream response with no readable JSON body. -/
def resp204 : HttpResponse :=
  { status := 204, statusText := "No Content", contentType := some "application/json",
    contentLength := none, textBody := some "", readErrMsg := "", jsonBody := none }

/-- An arbitrary fixed network oracle. -/
def anyNet : HttpRequest → HttpResponse := fun _ => resp204

/-- The required fields of a valid createService request body. -/
def csBodyBase : List (String × Json) :=
  [("name", Json.str "svc1"), ("provider", Json.str "aws"), ("region", Json.str "us-east-1")]

/-- createService arguments whose body carries a given minReplicaMemoryGb. -/
def csArgsMem (q : Rat) : Json :=
  Json.obj [("organizationId", Json.str uuidOrg),
            ("body", Json.obj (csBodyBase ++ [("minReplicaMemoryGb", Json.num q)]))]

/-- The exact multiple-of check accepts precisely the integral multiples. -/
theorem multipleOfCheck_four_iff (q : Rat) :
    multipleOfCheck q 4 = true ↔ ∃ k : ℤ, q = 4 * k := by
  unfold multipleOfCheck
  have h4 : ((4 : Rat).num : Int) = 4 := rfl
  have h4d : ((4 : Rat).den : Int) = 1 := rfl
  rw [h4, h4d, beq_iff_eq, mul_one]
  have hden : (q.den : Int) ≠ 0 := by exact_mod_cast q.den_nz
  constructor
  · intro h
    obtain ⟨k, hk⟩ := Int.dvd_of_emod_eq_zero h
    refine ⟨k, ?_⟩
    have hq : ((q.num : Rat)) = ((4 * (q.den : Int) * k : Int) : Rat) := by
      exact_mod_cast congrArg (fun n : Int => (n : Rat)) hk
    have hrepr : q = (q.num : Rat) / (q.den : Rat) := (Rat.num_div_den q).symm
    rw [hrepr, hq]
    push_cast
    have hdenQ : ((q.den : Int) : Rat) ≠ 0 := by exact_mod_cast hden
    field_simp
    ring
  · rintro ⟨k, rfl⟩
    have hnum : ((4 : Rat) * (k : Rat)).num = 4 * k := by
      have : (4 : Rat) * (k : Rat) = ((4 * k : Int) : Rat) := by push_cast; ring
      rw [this, Rat.intCast_num]
    have hden1 : ((4 : Rat) * (k : Rat)).den = 1 := by
      have : (4 : Rat) * (k : Rat) = ((4 * k : Int) : Rat) := by push_cast; ring
      rw [this, Rat.intCast_den]
    rw [hnum, hden1]
    simp [Int.mul_emod_right]

/-! ## Claim theorems -/

/-- C8: the minReplicaMemoryGb constraint of createService (minimum 8,
multiple of 4) is checked with exact semantics: value 10 fails validation
with an issue naming the field body.minReplicaMemoryGb, while 8, 12 and
16 pass; and the multiple-of-4 check accepts exactly the integral
multiples of 4, with no floating-point drift. -/
theorem c8_minReplicaMemoryGb_exact :
    zparse CreateServiceSchema [] (csArgsMem 10) =
      Except.error [⟨["body", "minReplicaMemoryGb"], "Number must be a multiple of 4"⟩] ∧
    zparse CreateServiceSchema [] (csArgsMem 8) = Except.ok (csArgsMem 8) ∧
    zparse CreateServiceSchema [] (csArgsMem 12) = Except.ok (csArgsMem 12) ∧
    zparse CreateServiceSchema [] (csArgsMem 16) = Except.ok (csArgsMem 16) ∧
    (∀ q : Rat, multipleOfCheck q 4 = true ↔ ∃ k : ℤ, q = 4 * k) := by
  exact ⟨by rfl, by rfl, by rfl, by rfl, multipleOfCheck_four_iff⟩

/-- Witness for C8 at the concrete value 12 = 4 * 3. -/
theorem c8_minReplicaMemoryGb_witness : multipleOfCheck 12 4 = true := by
  exact (c8_minReplicaMemoryGb_exact.2.2.2.2 12).mpr ⟨3, by norm_num⟩

/-- C9: for a non-text-plain response whose status is outside 2xx and
whose body is empty (status 204 or content-length header 0), the raised
error message carries the synthesized placeholder text, because the
no-content value is synthesized before the status gate and its message
field wins the extraction. -/
theorem c9_no_content_non2xx_message (method : Method) (path : String)
    (r : HttpResponse)
    (h1 : isTextPlain r = false)
    (h2 : r.status = 204 ∨ r.contentLength = some "0")
    (h3 : responseOk r = false) :
    (handleResponse method path r).1 =
      Except.error ("ClickHouse API Error (" ++ methodStr method ++ " " ++ path ++ "): "
        ++ toString r.status ++ " " ++ "Operation successful (No Content)") := by
  unfold handleResponse
  rw [h1]
  simp only [Bool.false_eq_true, if_false]
  have hcond : (r.status = 204 || r.contentLength = some "0") = true := by
    rcases h2 with h | h <;> simp [h]
  rw [hcond]
  simp only [if_true]
  unfold finishJson
  rw [h3]
  simp only [Bool.false_eq_true, if_false]
  simp [apiErr, extractErrMsg, noContentValue, truthyLookup, jLookup, lookupField,
    jsTruthy, jsToString]

/-- A 404 response with content-length 0 and no parsable body. -/
def resp404cl0 : HttpResponse :=
  { status := 404, statusText := "Not Found", contentType := some "application/json",
    contentLength := some "0", textBody := some "", readErrMsg := "", jsonBody := none }

/-- Witness for C9: a 404 with content-length 0 surfaces the placeholder. -/
theorem c9_no_content_non2xx_witness :
    (handleResponse Method.GET "/v1/organizations" resp404cl0).1 =
      Except.error
        "ClickHouse API Error (GET /v1/organizations): 404 Operation successful (No Content)" := by
  have h := c9_no_content_non2xx_message Method.GET "/v1/organizations" resp404cl0
    (by rfl) (Or.inr rfl) (by rfl)
  exact h

/-- C3: for a non-text-plain response, status 204 or content-length 0
short-circuits the JSON path: no JSON parse is attempted and, on a 2xx
status, the adapter returns the synthesized success value with the
status and the message Operation successful (No Content); in particular
a 204 no-body response to deleteService yields exactly that value
wrapped as MCP content, never a parse failure. -/
theorem c3_no_content_synthesis :
    (∀ (method : Method) (path : String) (r : HttpResponse),
      isTextPlain r = false →
      (r.status = 204 ∨ r.contentLength = some "0") →
      (handleResponse method path r).2 = false ∧
      (responseOk r = true →
        (handleResponse method path r).1 = Except.ok (Json.obj
          [("status", Json.num (r.status : Rat)),
           ("message", Json.str "Operation successful (No Content)")]))) ∧
    dispatch envOK "clickhouse_deleteService"
        (Json.obj [("organizationId", Json.str uuidOrg), ("serviceId", Json.str uuidSvc)])
        (fun _ => resp204)
      = { requests := [{ path := "/v1/organizations/" ++ uuidOrg ++ "/services/" ++ uuidSvc,
                         method := Method.DELETE, body := none, contentTypeJson := false }],
          outcome := Except.ok (mcpContent (Json.obj
            [("status", Json.num (204 : Rat)),
             ("message", Json.str "Operation successful (No Content)")])),
          jsonParsed := false } := by
  constructor
  · intro method path r h1 h2
    have hcond : (r.status = 204 || r.contentLength = some "0") = true := by
      rcases h2 with h | h <;> simp [h]
    unfold handleResponse
    rw [h1]
    simp only [Bool.false_eq_true, if_false]
    rw [hcond]
    simp only [if_true]
    unfold finishJson noContentValue
    constructor
    · split <;> rfl
    · intro hok
      rw [hok]
      simp
  · rfl

/-- Witness for C3 at a concrete 204 response. -/
theorem c3_no_content_witness :
    (handleResponse Method.DELETE "/v1/x" resp204).2 = false ∧
    (handleResponse Method.DELETE "/v1/x" resp204).1 = Except.ok (Json.obj
      [("status", Json.num (204 : Rat)),
       ("message", Json.str "Operation successful (No Content)")]) := by
  have h := c3_no_content_synthesis.1 Method.DELETE "/v1/x" resp204 (by rfl) (Or.inl rfl)
  exact ⟨h.1, h.2 (by rfl)⟩

/-- C5: for a non-text-plain response with a parsed JSON body and a non-2xx
status, the adapter raises an error whose message includes the status code
and is extracted with this precedence: the body error field if present and
truthy, else its message field, else the serialized body, else the HTTP
status text. -/
theorem c5_non2xx_error_extraction (method : Method) (path : String)
    (r : HttpResponse) (data : Json)
    (h1 : isTextPlain r = false)
    (h2 : responseOk r = false)
    (h3 : ¬ r.status = 204)
    (h4 : ¬ r.contentLength = some "0")
    (h5 : r.jsonBody = some data) :
    (handleResponse method path r).1 =
      Except.error ("ClickHouse API Error (" ++ methodStr method ++ " " ++ path ++ "): "
        ++ toString r.status ++ " " ++ extractErrMsg data r.statusText) ∧
    (∀ v, jLookup data "error" = some v → jsTruthy v = true →
      extractErrMsg data r.statusText = jsToString v) ∧
    (truthyLookup data "error" = none →
      ∀ v, jLookup data "message" = some v → jsTruthy v = true →
        extractErrMsg data r.statusText = jsToString v) ∧
    (truthyLookup data "error" = none → truthyLookup data "message" = none →
      extractErrMsg data r.statusText =
        (if stringify data = "" then r.statusText else stringify data)) := by
  refine ⟨?_, ?_, ?_, ?_⟩
  · unfold handleResponse
    rw [h1]
    simp only [Bool.false_eq_true, if_false]
    have hcond : (r.status = 204 || r.contentLength = some "0") = false := by
      simp [h3, h4]
    rw [hcond]
    simp only [Bool.false_eq_true, if_false]
    rw [h5]
    unfold finishJson
    rw [h2]
    simp [apiErr]
  · intro v hv htr
    simp [extractErrMsg, truthyLookup, hv, htr]
  · intro herr v hv htr
    unfold extractErrMsg
    rw [herr]
    simp [truthyLookup, hv, htr]
  · intro herr hmsg
    simp [extractErrMsg, herr, hmsg]

/-- A 404 response with the JSON body carrying an error field. -/
def resp404err : HttpResponse :=
  { status := 404, statusText := "Not Found", contentType := some "application/json",
    contentLength := some "32", textBody := some "",
    readErrMsg := "", jsonBody := some (Json.obj [("error", Json.str "not found")]) }

/-- Witness for C5: a 404 with the body error field not found surfaces a
message containing not found and the status code. -/
theorem c5_non2xx_error_witness :
    (handleResponse Method.GET "/v1/organizations/abc" resp404err).1 =
      Except.error "ClickHouse API Error (GET /v1/organizations/abc): 404 not found" := by
  have h := c5_non2xx_error_extraction Method.GET "/v1/organizations/abc" resp404err
    (Json.obj [("error", Json.str "not found")])
    (by rfl) (by rfl) (by decide) (by decide) (by rfl)
  exact h.1

/-- C6 counterexample: a supplied body value that is JavaScript-falsy
(null) is not attached even though the method is POST, refuting the
claimed equivalence between body attachment and (POST or PATCH method
with a supplied body value). -/
theorem c6_counterexample :
    ¬ (((buildRequest "/v1/organizations/o/services" Method.POST (some Json.null)).body ≠ none)
        ↔ ((Method.POST = Method.POST ∨ Method.POST = Method.PATCH)
            ∧ some Json.null ≠ (none : Option Json))) := by
  intro h
  have h2 : (buildRequest "/v1/organizations/o/services" Method.POST (some Json.null)).body
      = none := by rfl
  have h3 := h.mpr ⟨Or.inl rfl, by simp⟩
  exact h3 h2

/-- C6 (amended): a request body, serialized with the JSON content type,
is attached if and only if the method is POST or PATCH and a supplied
body value is JavaScript-truthy (a supplied null, false, 0 or empty
string counts as absent); GET and DELETE never carry a body or the JSON
content type, whatever body value is passed in. -/
theorem c6_body_attachment (path : String) (method : Method) (body : Option Json) :
    ((buildRequest path method body).body ≠ none ↔
      ((method = Method.POST ∨ method = Method.PATCH) ∧
        ∃ b, body = some b ∧ jsTruthy b = true)) ∧
    ((method = Method.GET ∨ method = Method.DELETE) →
      (buildRequest path method body).body = none ∧
      (buildRequest path method body).contentTypeJson = false) ∧
    ((buildRequest path method body).contentTypeJson = true ↔
      (buildRequest path method body).body ≠ none) ∧
    ((buildRequest path method body).body ≠ none →
      (buildRequest path method body).body = body) := by
  rcases body with _ | b
  · cases method <;> simp [buildRequest]
  · by_cases hb : jsTruthy b = true
    · cases method <;> simp [buildRequest, hb]
    · cases method <;>
        simp only [Bool.not_eq_true] at hb <;>
        simp [buildRequest, hb]

/-- Witness for C6: a GET with a supplied (truthy) body carries neither a
body nor the JSON content type. -/
theorem c6_body_attachment_witness :
    (buildRequest "/v1/organizations" Method.GET (some (Json.obj []))).body = none ∧
    (buildRequest "/v1/organizations" Method.GET (some (Json.obj []))).contentTypeJson
      = false := by
  exact (c6_body_attachment "/v1/organizations" Method.GET (some (Json.obj []))).2.1
    (Or.inl rfl)

/-- A 200 text/plain response with a given body text. -/
def respTextOK (t : String) : HttpResponse :=
  { status := 200, statusText := "OK", contentType := some "text/plain; charset=utf-8",
    contentLength := none, textBody := some t, readErrMsg := "", jsonBody := none }

/-- C7: a content-type beginning with text/plain wins before any JSON
handling: on a 2xx status the adapter returns the raw body text wrapped
in a plainTextResponse object (no JSON parse attempted); on a non-2xx
status it raises the plain-text body as the error message, or the HTTP
status text when the body is unreadable; and a 200 text/plain response
reaches the caller wrapped in the standard MCP success content
envelope. -/
theorem c7_text_plain_priority :
    (∀ (method : Method) (path : String) (r : HttpResponse) (t : String),
      isTextPlain r = true → responseOk r = true → r.textBody = some t →
      handleResponse method path r =
        (Except.ok (Json.obj [("plainTextResponse", Json.str t)]), false)) ∧
    (∀ (method : Method) (path : String) (r : HttpResponse) (t : String),
      isTextPlain r = true → responseOk r = false → r.textBody = some t →
      handleResponse method path r =
        (Except.error ("ClickHouse API Error (" ++ methodStr method ++ " " ++ path ++ "): "
          ++ toString r.status ++ " " ++ t), false)) ∧
    (∀ (method : Method) (path : String) (r : HttpResponse),
      isTextPlain r = true → responseOk r = false → r.textBody = none →
      handleResponse method path r =
        (Except.error ("ClickHouse API Error (" ++ methodStr method ++ " " ++ path ++ "): "
          ++ toString r.status ++ " " ++ r.statusText), false)) ∧
    (∀ t : String,
      dispatch envOK "clickhouse_listOrganizations" (Json.obj []) (fun _ => respTextOK t) =
        { requests := [{ path := "/v1/organizations", method := Method.GET,
                         body := none, contentTypeJson := false }],
          outcome := Except.ok (mcpContent (Json.obj [("plainTextResponse", Json.str t)])),
          jsonParsed := false }) := by
  refine ⟨?_, ?_, ?_, ?_⟩
  · intro method path r t h1 h2 h3
    simp [handleResponse, h1, h2, h3]
  · intro method path r t h1 h2 h3
    simp [handleResponse, apiErr, h1, h2, h3]
  · intro method path r h1 h2 h3
    simp [handleResponse, apiErr, h1, h2, h3]
  · intro t
    rfl

/-- Witness for C7 at a concrete plain-text 200 response. -/
theorem c7_text_plain_witness :
    handleResponse Method.GET "/v1/metrics" (respTextOK "metric 1") =
      (Except.ok (Json.obj [("plainTextResponse", Json.str "metric 1")]), false) := by
  exact c7_text_plain_priority.1 Method.GET "/v1/metrics" (respTextOK "metric 1")
    "metric 1" (by rfl) (by rfl) (by rfl)

/-- A valid createService request body with only the required fields. -/
def csBody : Json := Json.obj csBodyBase

theorem zparse_csBody :
    zparse ServicePostRequestSchema ["body"] csBody = Except.ok csBody := by rfl

theorem zparse_command_start :
    zparse ServiceStatePatchRequestSchema ["body"]
      (Json.obj [("command", Json.str "start")])
    = Except.ok (Json.obj [("command", Json.str "start")]) := by rfl

theorem zparse_command_stop :
    zparse ServiceStatePatchRequestSchema ["body"]
      (Json.obj [("command", Json.str "stop")])
    = Except.ok (Json.obj [("command", Json.str "stop")]) := by rfl

/-- C10: the tool input schemas are non-strict objects: arguments carrying
all declared fields with valid values plus arbitrary extra top-level keys
pass validation, and the extra keys are stripped from the validated
output rather than rejected; in particular listOrganizations accepts any
object at all. -/
theorem c10_extra_keys_stripped :
    (∀ kvs : List (String × Json),
      zparse ListOrganizationsSchema [] (Json.obj kvs) = Except.ok (Json.obj [])) ∧
    (∀ (o : String) (extras : List (String × Json)), isUuid o = true →
      zparse GetOrganizationDetailsSchema []
          (Json.obj (("organizationId", Json.str o) :: extras))
        = Except.ok (Json.obj [("organizationId", Json.str o)])) ∧
    (∀ (o : String) (extras : List (String × Json)), isUuid o = true →
      zparse ListServicesSchema []
          (Json.obj (("organizationId", Json.str o) :: extras))
        = Except.ok (Json.obj [("organizationId", Json.str o)])) ∧
    (∀ (o : String) (extras : List (String × Json)), isUuid o = true →
      zparse ListApiKeysSchema []
          (Json.obj (("organizationId", Json.str o) :: extras))
        = Except.ok (Json.obj [("organizationId", Json.str o)])) ∧
    (∀ (o s : String) (extras : List (String × Json)),
      isUuid o = true → isUuid s = true →
      zparse GetServiceDetailsSchema []
          (Json.obj (("organizationId", Json.str o) :: ("serviceId", Json.str s) :: extras))
        = Except.ok (Json.obj
            [("organizationId", Json.str o), ("serviceId", Json.str s)])) ∧
    (∀ (o s : String) (extras : List (String × Json)),
      isUuid o = true → isUuid s = true →
      zparse DeleteServiceSchema []
          (Json.obj (("organizationId", Json.str o) :: ("serviceId", Json.str s) :: extras))
        = Except.ok (Json.obj
            [("organizationId", Json.str o), ("serviceId", Json.str s)])) ∧
    (∀ (o : String) (extras : List (String × Json)), isUuid o = true →
      zparse CreateServiceSchema []
          (Json.obj (("organizationId", Json.str o) :: ("body", csBody) :: extras))
        = Except.ok (Json.obj [("organizationId", Json.str o), ("body", csBody)])) ∧
    (∀ (o s : String) (extras : List (String × Json)),
      isUuid o = true → isUuid s = true →
      zparse UpdateServiceStateSchema []
          (Json.obj (("organizationId", Json.str o) :: ("serviceId", Json.str s)
            :: ("body", Json.obj [("command", Json.str "start")]) :: extras))
        = Except.ok (Json.obj [("organizationId", Json.str o), ("serviceId", Json.str s),
            ("body", Json.obj [("command", Json.str "start")])])) := by
  refine ⟨?_, ?_, ?_, ?_, ?_, ?_, ?_, ?_⟩
  · intro kvs
    simp [ListOrganizationsSchema, zparse, fieldIssues, fieldOut]
  · intro o extras h
    simp [GetOrganizationDetailsSchema, OrgIdParamSchema, zparse, fieldIssues, fieldOut,
      lookupField, h]
  · intro o extras h
    simp [ListServicesSchema, OrgIdParamSchema, zparse, fieldIssues, fieldOut,
      lookupField, h]
  · intro o extras h
    simp [ListApiKeysSchema, OrgIdParamSchema, zparse, fieldIssues, fieldOut,
      lookupField, h]
  · intro o s extras ho hs
    simp [GetServiceDetailsSchema, ServiceIdParamSchema, zparse, fieldIssues, fieldOut,
      lookupField, ho, hs]
  · intro o s extras ho hs
    simp [DeleteServiceSchema, ServiceIdParamSchema, zparse, fieldIssues, fieldOut,
      lookupField, ho, hs]
  · intro o extras h
    simp [CreateServiceSchema, zparse, fieldIssues, fieldOut, lookupField, h,
      zparse_csBody]
    rfl
  · intro o s extras ho hs
    simp [UpdateServiceStateSchema, zparse, fieldIssues, fieldOut, lookupField,
      ho, hs, zparse_command_start]

/-- Witness for C10: getOrganizationDetails accepts an extra key and
strips it. -/
theorem c10_extra_keys_witness :
    zparse GetOrganizationDetailsSchema []
        (Json.obj [("organizationId", Json.str uuidOrg), ("extra", Json.bool true)])
      = Except.ok (Json.obj [("organizationId", Json.str uuidOrg)]) := by
  exact c10_extra_keys_stripped.2.1 uuidOrg [("extra", Json.bool true)] isUuid_uuidOrg

/-- C4: each row of the endpoint table issues exactly one HTTP request
with that row its method, its path template with the validated path
parameters substituted, and its body when one is defined; in particular
updateServiceState issues exactly one PATCH to the state path with the
command object as body. -/
theorem c4_endpoint_table :
    ∀ (env : Env) (net : HttpRequest → HttpResponse),
    strFalsy env.apiKeyId = false → strFalsy env.apiKeySecret = false →
    ((dispatch env "clickhouse_listOrganizations" (Json.obj []) net).requests
      = [{ path := "/v1/organizations", method := Method.GET,
           body := none, contentTypeJson := false }]) ∧
    (∀ o, isUuid o = true →
      (dispatch env "clickhouse_getOrganizationDetails"
          (Json.obj [("organizationId", Json.str o)]) net).requests
        = [{ path := "/v1/organizations/" ++ o, method := Method.GET,
             body := none, contentTypeJson := false }]) ∧
    (∀ o, isUuid o = true →
      (dispatch env "clickhouse_listServices"
          (Json.obj [("organizationId", Json.str o)]) net).requests
        = [{ path := "/v1/organizations/" ++ o ++ "/services", method := Method.GET,
             body := none, contentTypeJson := false }]) ∧
    (∀ o s, isUuid o = true → isUuid s = true →
      (dispatch env "clickhouse_getServiceDetails"
          (Json.obj [("organizationId", Json.str o), ("serviceId", Json.str s)]) net).requests
        = [{ path := "/v1/organizations/" ++ o ++ "/services/" ++ s, method := Method.GET,
             body := none, contentTypeJson := false }]) ∧
    (∀ o, isUuid o = true →
      (dispatch env "clickhouse_createService"
          (Json.obj [("organizationId", Json.str o), ("body", csBody)]) net).requests
        = [{ path := "/v1/organizations/" ++ o ++ "/services", method := Method.POST,
             body := some csBody, contentTypeJson := true }]) ∧
    (∀ o s, isUuid o = true → isUuid s = true →
      (dispatch env "clickhouse_deleteService"
          (Json.obj [("organizationId", Json.str o), ("serviceId", Json.str s)]) net).requests
        = [{ path := "/v1/organizations/" ++ o ++ "/services/" ++ s, method := Method.DELETE,
             body := none, contentTypeJson := false }]) ∧
    (∀ o, isUuid o = true →
      (dispatch env "clickhouse_listApiKeys"
          (Json.obj [("organizationId", Json.str o)]) net).requests
        = [{ path := "/v1/organizations/" ++ o ++ "/keys", method := Method.GET,
             body := none, contentTypeJson := false }]) ∧
    (∀ o s cmd, isUuid o = true → isUuid s = true →
      (cmd = "start" ∨ cmd = "stop") →
      (dispatch env "clickhouse_updateServiceState"
          (Json.obj [("organizationId", Json.str o), ("serviceId", Json.str s),
            ("body", Json.obj [("command", Json.str cmd)])]) net).requests
        = [{ path := "/v1/organizations/" ++ o ++ "/services/" ++ s ++ "/state",
             method := Method.PATCH,
             body := some (Json.obj [("command", Json.str cmd)]),
             contentTypeJson := true }]) := by
  intro env net hA hB
  refine ⟨?_, ?_, ?_, ?_, ?_, ?_, ?_, ?_⟩
  · simp [dispatch, hA, hB, ListOrganizationsSchema, zparse, fieldIssues, fieldOut,
      runTool, buildRequest]
  · intro o ho
    simp [dispatch, hA, hB, GetOrganizationDetailsSchema, OrgIdParamSchema, zparse,
      fieldIssues, fieldOut, lookupField, ho, getStr, jLookup, jsToString,
      runTool, buildRequest]
  · intro o ho
    simp [dispatch, hA, hB, ListServicesSchema, OrgIdParamSchema, zparse,
      fieldIssues, fieldOut, lookupField, ho, getStr, jLookup, jsToString,
      runTool, buildRequest]
  · intro o s ho hs
    simp [dispatch, hA, hB, GetServiceDetailsSchema, ServiceIdParamSchema, zparse,
      fieldIssues, fieldOut, lookupField, ho, hs, getStr, jLookup, jsToString,
      runTool, buildRequest]
  · intro o ho
    simp [dispatch, hA, hB, CreateServiceSchema, zparse, fieldIssues, fieldOut,
      lookupField, ho, zparse_csBody, getStr, jLookup, jsToString,
      runTool, buildRequest, jsTruthy, csBody, csBodyBase]
  · intro o s ho hs
    simp [dispatch, hA, hB, DeleteServiceSchema, ServiceIdParamSchema, zparse,
      fieldIssues, fieldOut, lookupField, ho, hs, getStr, jLookup, jsToString,
      runTool, buildRequest]
  · intro o ho
    simp [dispatch, hA, hB, ListApiKeysSchema, OrgIdParamSchema, zparse,
      fieldIssues, fieldOut, lookupField, ho, getStr, jLookup, jsToString,
      runTool, buildRequest]
  · intro o s cmd ho hs hcmd
    rcases hcmd with rfl | rfl
    · simp [dispatch, hA, hB, UpdateServiceStateSchema, zparse, fieldIssues, fieldOut,
        lookupField, ho, hs, zparse_command_start, getStr, jLookup, jsToString,
        runTool, buildRequest, jsTruthy]
    · simp [dispatch, hA, hB, UpdateServiceStateSchema, zparse, fieldIssues, fieldOut,
        lookupField, ho, hs, zparse_command_stop, getStr, jLookup, jsToString,
        runTool, buildRequest, jsTruthy]

/-- Witness for C4: updateServiceState with command start issues exactly
one PATCH to the state path with the command object as body. -/
theorem c4_endpoint_table_witness :
    (dispatch envOK "clickhouse_updateServiceState"
        (Json.obj [("organizationId", Json.str uuidOrg), ("serviceId", Json.str uuidSvc),
          ("body", Json.obj [("command", Json.str "start")])]) anyNet).requests
      = [{ path := "/v1/organizations/" ++ uuidOrg ++ "/services/" ++ uuidSvc ++ "/state",
           method := Method.PATCH,
           body := some (Json.obj [("command", Json.str "start")]),
           contentTypeJson := true }] := by
  exact (c4_endpoint_table envOK anyNet rfl rfl).2.2.2.2.2.2.2 uuidOrg uuidSvc "start"
    isUuid_uuidOrg isUuid_uuidSvc (Or.inl rfl)

/-- C2: an invocation whose tool name is outside the registry, or whose
arguments fail the tool its schema (for example a badly-formed UUID),
reaches the failed outcome without any HTTP request being issued: the
request list is empty and no network call is attempted. -/
theorem c2_validation_blocks_call :
    ∀ (env : Env) (name : String) (args : Json) (net : HttpRequest → HttpResponse),
    (schemaFor name = none ∨
      ∃ sch issues, schemaFor name = some sch ∧ zparse sch [] args = Except.error issues) →
    (dispatch env name args net).requests = [] ∧
    ∃ e, (dispatch env name args net).outcome = Except.error e := by
  intro env name args net h
  by_cases hcp : (strFalsy env.apiKeyId = true ∨ strFalsy env.apiKeySecret = true)
  · refine ⟨by simp [dispatch, hcp], configErrMsg, by simp [dispatch, hcp]⟩
  · by_cases h1 : name = "clickhouse_listOrganizations"
    · subst h1
      simp [schemaFor] at h
      obtain ⟨issues, hz⟩ := h
      have hd : dispatch env "clickhouse_listOrganizations" args net
          = failTool "clickhouse_listOrganizations" (zodMsg issues) := by
        simp [dispatch, hcp, hz]
      rw [hd]
      exact ⟨rfl, _, rfl⟩
    · by_cases h2 : name = "clickhouse_getOrganizationDetails"
      · subst h2
        simp [schemaFor] at h
        obtain ⟨issues, hz⟩ := h
        have hd : dispatch env "clickhouse_getOrganizationDetails" args net
            = failTool "clickhouse_getOrganizationDetails" (zodMsg issues) := by
          simp [dispatch, hcp, hz]
        rw [hd]
        exact ⟨rfl, _, rfl⟩
      · by_cases h3 : name = "clickhouse_listServices"
        · subst h3
          simp [schemaFor] at h
          obtain ⟨issues, hz⟩ := h
          have hd : dispatch env "clickhouse_listServices" args net
              = failTool "clickhouse_listServices" (zodMsg issues) := by
            simp [dispatch, hcp, hz]
          rw [hd]
          exact ⟨rfl, _, rfl⟩
        · by_cases h4 : name = "clickhouse_getServiceDetails"
          · subst h4
            simp [schemaFor] at h
            obtain ⟨issues, hz⟩ := h
            have hd : dispatch env "clickhouse_getServiceDetails" args net
                = failTool "clickhouse_getServiceDetails" (zodMsg issues) := by
              simp [dispatch, hcp, hz]
            rw [hd]
            exact ⟨rfl, _, rfl⟩
          · by_cases h5 : name = "clickhouse_createService"
            · subst h5
              simp [schemaFor] at h
              obtain ⟨issues, hz⟩ := h
              have hd : dispatch env "clickhouse_createService" args net
                  = failTool "clickhouse_createService" (zodMsg issues) := by
                simp [dispatch, hcp, hz]
              rw [hd]
              exact ⟨rfl, _, rfl⟩
            · by_cases h6 : name = "clickhouse_deleteService"
              · subst h6
                simp [schemaFor] at h
                obtain ⟨issues, hz⟩ := h
                have hd : dispatch env "clickhouse_deleteService" args net
                    = failTool "clickhouse_deleteService" (zodMsg issues) := by
                  simp [dispatch, hcp, hz]
                rw [hd]
                exact ⟨rfl, _, rfl⟩
              · by_cases h7 : name = "clickhouse_listApiKeys"
                · subst h7
                  simp [schemaFor] at h
                  obtain ⟨issues, hz⟩ := h
                  have hd : dispatch env "clickhouse_listApiKeys" args net
                      = failTool "clickhouse_listApiKeys" (zodMsg issues) := by
                    simp [dispatch, hcp, hz]
                  rw [hd]
                  exact ⟨rfl, _, rfl⟩
                · by_cases h8 : name = "clickhouse_updateServiceState"
                  · subst h8
                    simp [schemaFor] at h
                    obtain ⟨issues, hz⟩ := h
                    have hd : dispatch env "clickhouse_updateServiceState" args net
                        = failTool "clickhouse_updateServiceState" (zodMsg issues) := by
                      simp [dispatch, hcp, hz]
                    rw [hd]
                    exact ⟨rfl, _, rfl⟩
                  · have hd : dispatch env name args net
                        = failTool name ("Unknown tool: " ++ name) := by
                      simp [dispatch, hcp, h1, h2, h3, h4, h5, h6, h7, h8]
                    rw [hd]
                    exact ⟨rfl, _, rfl⟩

/-- Witness for C2: a getOrganizationDetails invocation with a
badly-formed organizationId issues no request and fails. -/
theorem c2_validation_blocks_call_witness :
    (dispatch envOK "clickhouse_getOrganizationDetails"
        (Json.obj [("organizationId", Json.str "not-a-uuid")]) anyNet).requests = [] ∧
    ∃ e, (dispatch envOK "clickhouse_getOrganizationDetails"
        (Json.obj [("organizationId", Json.str "not-a-uuid")]) anyNet).outcome
      = Except.error e := by
  exact c2_validation_blocks_call envOK "clickhouse_getOrganizationDetails"
    (Json.obj [("organizationId", Json.str "not-a-uuid")]) anyNet
    (Or.inr ⟨GetOrganizationDetailsSchema, [⟨["organizationId"], "Invalid uuid"⟩],
      rfl, by rfl⟩)

/-- C1 (amended): every failure raised inside the dispatch switch —
unknown tool, validation failure, upstream HTTP failure — is re-surfaced
to the caller as a single message of the form Tool name failed, followed
by the underlying message, and never silently discarded; a missing or
empty credential, checked before the switch, instead fails the call with
the bare configuration message, without the tool-name form. -/
theorem c1_error_prefixing :
    ∀ (env : Env) (name : String) (args : Json) (net : HttpRequest → HttpResponse),
    ((strFalsy env.apiKeyId || strFalsy env.apiKeySecret) = true →
      (dispatch env name args net).outcome = Except.error configErrMsg) ∧
    ((strFalsy env.apiKeyId || strFalsy env.apiKeySecret) = false →
      ∀ e, (dispatch env name args net).outcome = Except.error e →
        ∃ m, e = "Tool " ++ name ++ " failed: " ++ m) := by
  intro env name args net
  refine ⟨?_, ?_⟩
  · intro hc
    simp [dispatch, hc]
  · intro hc e he
    simp only [dispatch, hc, Bool.false_eq_true, if_false, runTool, failTool] at he
    repeat' split at he
    all_goals
      first
      | (injection he with he2
         exact ⟨_, he2.symm⟩)
      | injection he

/-- C1 counterexample: with the key id unset, the surfaced error is the
bare configuration message, which does not have the form Tool name
failed followed by an underlying message — the claim that the
missing-credential failure carries the tool-name form is false. -/
theorem c1_counterexample :
    (dispatch { apiKeyId := none, apiKeySecret := some "secret" }
        "clickhouse_listOrganizations" (Json.obj []) anyNet).outcome
      = Except.error configErrMsg ∧
    ∀ m : String, configErrMsg ≠ "Tool clickhouse_listOrganizations failed: " ++ m := by
  refine ⟨by rfl, ?_⟩
  intro m h
  have h2 : configErrMsg.data.head? =
      (("Tool clickhouse_listOrganizations failed: ").data ++ m.data).head? := by
    have h3 : ("Tool clickhouse_listOrganizations failed: " ++ m).data
        = ("Tool clickhouse_listOrganizations failed: ").data ++ m.data := rfl
    rw [← h3]
    exact congrArg (fun s => s.data.head?) h
  have hC : configErrMsg.data.head? = some 'C' := rfl
  have hT : (("Tool clickhouse_listOrganizations failed: ").data ++ m.data).head?
      = some 'T' := rfl
  rw [hC, hT] at h2
  exact absurd h2 (by decide)

/-- Witness for C1: a failing invocation of an unknown tool surfaces the
tool-name form. -/
theorem c1_error_prefixing_witness :
    ∃ m, (dispatch envOK "clickhouse_nope" (Json.obj []) anyNet).outcome
      = Except.error ("Tool clickhouse_nope failed: " ++ m) := by
  obtain ⟨m, hm⟩ := (c1_error_prefixing envOK "clickhouse_nope" (Json.obj []) anyNet).2
    (by rfl) "Tool clickhouse_nope failed: Unknown tool: clickhouse_nope"
    (by rfl)
  refine ⟨m, ?_⟩
  have h4 : ("Tool clickhouse_nope failed: " ++ m)
      = "Tool " ++ "clickhouse_nope" ++ " failed: " ++ m := rfl
  rw [h4, ← hm]
  rfl

end ClickHouseMcp
